import Mathlib

/-!
Shallow embedding of the authentication subsystem of the nba-project-backend
repository (src/app/auth.py, src/app/services/auth_services.py), together with
the FastAPI `HTTPBearer` dependency it composes with (`security = HTTPBearer()`).

Modelling conventions:
- machine time is an `Int` of unix seconds (PyJWT compares timestamps as numbers);
- a JWT on the wire is modelled symbolically: either `malformed` (any string that
  does not parse/verify as a JWT) or `signed payload sig`, where `sig` records the
  secret the token was signed with; signature verification succeeds exactly when
  that secret equals the verifier's secret;
- Python dict payloads are modelled as a structure of `Option` fields (a `none`
  field is an absent key, matching `payload.get(k)` returning `None`);
- Python exceptions become `Except`; a `try/except` block becomes a `match` on
  the `Except` value;
- external collaborators (the bcrypt C library, the database stored procedures)
  are parameters of the functions that call them, so theorems quantify over
  every possible behaviour of the collaborator.
-/

namespace NbaBackend

/-- Configuration loaded from the environment, src/app/auth.py `AuthConfig`. -/
structure AuthConfig where
  jwt_secret : String
  jwt_algorithm : String
  jwt_expire_hours : Int
  bcrypt_rounds : Int
deriving DecidableEq

/-- The environment variables `AuthConfig.__init__` reads.  `none` models an
unset variable.  `JWT_EXPIRE_HOURS` / `BCRYPT_ROUNDS` are modelled post-`int()`
parse (a parse failure would also abort startup and is outside the claims). -/
structure Env where
  jwt_secret_var : Option String
  jwt_expire_hours_var : Option Int
  bcrypt_rounds_var : Option Int
deriving DecidableEq

/-- `AuthConfig.__init__` (src/app/auth.py lines 18-32).  `if not self.jwt_secret`
is Python truthiness: both an unset variable and an empty string raise
`ValueError`.  This constructor runs at module import time
(`auth_config = AuthConfig()`, line 35), so an error here aborts the process
before any request handler exists. -/
def AuthConfig.init (env : Env) : Except String AuthConfig :=
  if env.jwt_secret_var.getD "" = "" then
    .error "JWT_SECRET environment variable not found. Please set a secure secret key for JWT token signing."
  else
    .ok { jwt_secret := env.jwt_secret_var.getD ""
          jwt_algorithm := "HS256"
          jwt_expire_hours := env.jwt_expire_hours_var.getD 24
          bcrypt_rounds := env.bcrypt_rounds_var.getD 12 }

/-- The `AuthError` exception of src/app/auth.py, carrying its message. -/
structure AuthErr where
  message : String
deriving DecidableEq

/-- A decoded JWT payload.  The fields are the keys `create_access_token` writes;
`Option` models a key that may be absent from a forged or foreign payload
(`payload.get` semantics).  `user_id` is an integer as issued by the database. -/
structure Payload where
  user_id : Option Int
  username : Option String
  email : Option String
  exp : Option Int
  iat : Option Int
  type : Option String
deriving DecidableEq

/-- A JWT on the wire: `malformed` is any string that fails PyJWT parsing or
signature checking structurally; `signed p s` is a well-formed token over
payload `p` signed with secret `s`. -/
inductive Token where
  | malformed : Token
  | signed : Payload → String → Token
deriving DecidableEq

/-- The PyJWT exceptions relevant to `verify_token`'s except clauses
(`ExpiredSignatureError` is a subclass of `InvalidTokenError` but is caught
first by the more specific clause). -/
inductive JwtError where
  | expiredSignature : JwtError
  | invalidToken : JwtError
deriving DecidableEq

/-- `jwt.decode(token, secret, algorithms=[...])` as called at
src/app/auth.py lines 156-160: verifies the signature first, then (when an
`exp` claim is present) raises `ExpiredSignatureError` when `exp <= now`
(PyJWT's `_validate_exp` with zero leeway treats exactly-at-expiry as
expired). -/
def jwt_decode (secret : String) (now : Int) (token : Token) :
    Except JwtError Payload :=
  match token with
  | .malformed => .error .invalidToken
  | .signed payload sig =>
    if sig = secret then
      match payload.exp with
      | some e => if e ≤ now then .error .expiredSignature else .ok payload
      | none => .ok payload
    else .error .invalidToken

/-- The user record passed to `create_access_token` / `create_login_response`:
must contain `user_id`, `username`, `email` (docstring lines 101-103). -/
structure UserData where
  user_id : Int
  username : String
  email : String
deriving DecidableEq

/-- `TokenManager.create_access_token` (src/app/auth.py lines 96-138) at issue
time `now`: payload carries the three identity claims, `exp = now + hours`,
`iat = now` and the fixed discriminator `type = "access_token"`, signed with
the configured secret. -/
def create_access_token (cfg : AuthConfig) (now : Int) (user_data : UserData) :
    Token :=
  Token.signed
    { user_id := some user_data.user_id
      username := some user_data.username
      email := some user_data.email
      exp := some (now + cfg.jwt_expire_hours * 3600)
      iat := some now
      type := some "access_token" }
    cfg.jwt_secret

/-- `TokenManager.verify_token` (src/app/auth.py lines 140-177).  A payload
whose `type` is not `"access_token"` raises `AuthError("Invalid token type")`
inside the `try` block; since `AuthError` is an `Exception` and not a
`jwt.InvalidTokenError`, it is caught by the final `except Exception` clause
and re-raised as `AuthError("Token verification failed")`. -/
def verify_token (cfg : AuthConfig) (now : Int) (token : Token) :
    Except AuthErr Payload :=
  match jwt_decode cfg.jwt_secret now token with
  | .error .expiredSignature => .error ⟨"Token has expired"⟩
  | .error .invalidToken => .error ⟨"Invalid token"⟩
  | .ok payload =>
    if payload.type = some "access_token" then .ok payload
    else .error ⟨"Token verification failed"⟩

/-- The dict returned by `extract_user_from_token`: the three `payload.get`
look-ups (src/app/auth.py lines 195-199). -/
structure UserInfo where
  user_id : Option Int
  username : Option String
  email : Option String
deriving DecidableEq

/-- `TokenManager.extract_user_from_token` (src/app/auth.py lines 179-199). -/
def extract_user_from_token (cfg : AuthConfig) (now : Int) (token : Token) :
    Except AuthErr UserInfo :=
  match verify_token cfg now token with
  | .error e => .error e
  | .ok payload =>
    .ok { user_id := payload.user_id
          username := payload.username
          email := payload.email }

/-- `PasswordManager.verify_password` (src/app/auth.py lines 71-91).
`checkpw` is the external `bcrypt.checkpw` call (together with the two
`.encode('utf-8')` steps): `.error` models any exception it raises (malformed
hash, encoding failure), `.ok b` a normal return.  The wrapper catches every
exception and returns `False`. -/
def verify_password (checkpw : String → String → Except String Bool)
    (plain_password hashed_password : String) : Bool :=
  match checkpw plain_password hashed_password with
  | .ok b => b
  | .error _ => false

/-- `validate_password_strength` (src/app/auth.py lines 281-307).
Python's `str.isalpha` / `str.isdigit` are Unicode-aware per-character
classifiers; they are taken as parameters `isalpha` / `isdigit` so every
statement below holds for the real Unicode classification (Lean's ASCII
`Char.isAlpha` / `Char.isDigit` are one admissible instantiation, used by the
concrete witness).  `password.length` counts code points, as Python `len`
does. -/
def validate_password_strength (isalpha isdigit : Char → Bool)
    (password : String) : Bool × String :=
  if password.length < 8 then
    (false, "Password must be at least 8 characters long")
  else if password.length > 128 then
    (false, "Password must be less than 128 characters long")
  else
    if !(password.toList.any isalpha) then
      (false, "Password must contain at least one letter")
    else if !(password.toList.any isdigit) then
      (false, "Password must contain at least one number")
    else
      (true, "")

/-- FastAPI's `HTTPException`: status code, detail message, and the extra
response headers (the 401s from `get_current_user` set
`WWW-Authenticate: Bearer`; the 403s raised by `HTTPBearer` set none). -/
structure HTTPExc where
  status_code : Nat
  detail : String
  headers : List (String × String)
deriving DecidableEq

/-- FastAPI's `HTTPAuthorizationCredentials`. -/
structure HTTPAuthorizationCredentials where
  scheme : String
  credentials : String
deriving DecidableEq

/-- Split a character list at its first space, Python
`str.partition(" ")`: everything before the first space paired with
everything after it (the whole string and `""` when no space occurs). -/
def splitAtFirstSpace : List Char → List Char × List Char
  | [] => ([], [])
  | c :: cs =>
    if c = ' ' then ([], cs)
    else
      let p := splitAtFirstSpace cs
      (c :: p.1, p.2)

/-- Starlette's `get_authorization_scheme_param`: `("", "")` for a falsy header
(absent or empty), otherwise `header.partition(" ")` giving (scheme, param). -/
def get_authorization_scheme_param (authorization : Option String) :
    String × String :=
  match authorization with
  | none => ("", "")
  | some a =>
    if a = "" then ("", "")
    else
      let p := splitAtFirstSpace a.toList
      (String.mk p.1, String.mk p.2)

/-- Python `str.lower` (exact on ASCII scheme names, which is what the
`scheme.lower() != "bearer"` comparison consumes). -/
def lowerString (s : String) : String :=
  String.mk (s.toList.map Char.toLower)

/-- FastAPI's `HTTPBearer.__call__` with the default `auto_error=True`, the
`security = HTTPBearer()` dependency of src/app/auth.py line 13.  A missing
header, an empty scheme or an empty credential raise
`HTTPException(403, "Not authenticated")`; a non-bearer scheme raises
`HTTPException(403, "Invalid authentication credentials")`. -/
def http_bearer (authorization : Option String) :
    Except HTTPExc HTTPAuthorizationCredentials :=
  if authorization.getD "" = "" ∨
      (get_authorization_scheme_param authorization).1 = "" ∨
      (get_authorization_scheme_param authorization).2 = "" then
    .error ⟨403, "Not authenticated", []⟩
  else if lowerString (get_authorization_scheme_param authorization).1 ≠ "bearer" then
    .error ⟨403, "Invalid authentication credentials", []⟩
  else
    .ok ⟨(get_authorization_scheme_param authorization).1,
         (get_authorization_scheme_param authorization).2⟩

/-- The `try` block of `get_current_user` (src/app/auth.py lines 219-229).
`parse` maps the credential string to the symbolic token it denotes.
`user_info` is a three-key dict, hence always truthy, so `not user_info` never
fires; `not user_info.get('user_id')` is Python truthiness on the integer
user id: `None` (absent) or `0`. -/
def get_current_user_try (cfg : AuthConfig) (now : Int)
    (parse : String → Token) (credentials : HTTPAuthorizationCredentials) :
    Except AuthErr UserInfo :=
  match extract_user_from_token cfg now (parse credentials.credentials) with
  | .error e => .error e
  | .ok user_info =>
    if user_info.user_id = none ∨ user_info.user_id = some 0 then
      .error ⟨"Invalid user information in token"⟩
    else
      .ok user_info

/-- `get_current_user` (src/app/auth.py lines 201-244): every `AuthError`
escaping the `try` block is mapped to
`HTTPException(401, "Could not validate credentials")` with a
`WWW-Authenticate: Bearer` header.  (The `except Exception` branch returning
detail "Authentication failed" is unreachable here: the body only raises
`AuthError`.) -/
def get_current_user (cfg : AuthConfig) (now : Int) (parse : String → Token)
    (credentials : HTTPAuthorizationCredentials) : Except HTTPExc UserInfo :=
  match get_current_user_try cfg now parse credentials with
  | .ok user_info => .ok user_info
  | .error _ =>
    .error ⟨401, "Could not validate credentials", [("WWW-Authenticate", "Bearer")]⟩

/-- The full authentication boundary of a protected request:
`Depends(security)` composed with `get_current_user` on the request's
`Authorization` header value. -/
def auth_request (cfg : AuthConfig) (now : Int) (parse : String → Token)
    (authorization : Option String) : Except HTTPExc UserInfo :=
  match http_bearer authorization with
  | .error e => .error e
  | .ok creds => get_current_user cfg now parse creds

/-- The dict built by `create_login_response` (src/app/auth.py lines 266-275). -/
structure LoginResponseData where
  access_token : Token
  token_type : String
  expires_in : Int
  user : UserData
deriving DecidableEq

/-- `create_login_response` (src/app/auth.py lines 246-279) at issue time
`now`. -/
def create_login_response (cfg : AuthConfig) (now : Int)
    (user_data : UserData) : LoginResponseData :=
  { access_token := create_access_token cfg now user_data
    token_type := "bearer"
    expires_in := cfg.jwt_expire_hours * 3600
    user := user_data }

/-- A row returned by the `get_user_for_login` stored procedure: the user
record together with the stored bcrypt hash (column `password`).
`created_at` is an opaque timestamp string. -/
structure UserRow where
  user_id : Int
  username : String
  email : String
  created_at : String
  password : String
deriving DecidableEq

/-- The dict `AuthService.authenticate_user` returns on success
(src/app/services/auth_services.py lines 94-99): exactly the four identity
keys, no password hash. -/
structure AuthUserData where
  user_id : Int
  username : String
  email : String
  created_at : String
deriving DecidableEq

/-- `AuthService.authenticate_user` (src/app/services/auth_services.py lines
64-103).  `get_user_for_login` is the external stored procedure: `.error`
models a raised `DatabaseError`, `.ok rows` its result set; `checkpw` is the
external bcrypt primitive as in `verify_password`.  Every failure path —
database error, no matching user, failed password check — returns `none`. -/
def authenticate_user (checkpw : String → String → Except String Bool)
    (get_user_for_login : String → Except String (List UserRow))
    (username password : String) : Option AuthUserData :=
  match get_user_for_login username with
  | .error _ => none
  | .ok [] => none
  | .ok (user :: _) =>
    if verify_password checkpw password user.password then
      some { user_id := user.user_id
             username := user.username
             email := user.email
             created_at := user.created_at }
    else
      none

/-! ### Concrete values used by witnesses and counterexamples -/

/-- A concrete configuration: secret set, 24-hour expiry, 12 bcrypt rounds. -/
def cfgEx : AuthConfig :=
  { jwt_secret := "supersecret", jwt_algorithm := "HS256",
    jwt_expire_hours := 24, bcrypt_rounds := 12 }

/-- A well-formed access-token payload that expired at time 50. -/
def expiredPayloadEx : Payload :=
  { user_id := some 1, username := some "alice",
    email := some "alice@example.com",
    exp := some 50, iat := some 0, type := some "access_token" }

/-- A payload whose `type` discriminator is not `"access_token"`. -/
def wrongTypePayloadEx : Payload :=
  { user_id := some 1, username := some "alice",
    email := some "alice@example.com",
    exp := some 1000, iat := some 0, type := some "refresh_token" }

/-- A token environment in which every credential string denotes the expired
(but correctly signed, correctly typed) token. -/
def parseEx : String → Token := fun _ => Token.signed expiredPayloadEx "supersecret"

/-- A concrete identity record. -/
def userEx : UserData := ⟨1, "alice", "alice@example.com"⟩

/-- A bcrypt stub that always raises (e.g. on a corrupted stored hash). -/
def failingCheckpwEx : String → String → Except String Bool :=
  fun _ _ => .error "Invalid salt"

/-- A bcrypt stub for which the password check succeeds. -/
def okCheckpwEx : String → String → Except String Bool :=
  fun _ _ => .ok true

/-- A stored-procedure stub returning one user row. -/
def procEx : String → Except String (List UserRow) :=
  fun _ => .ok [⟨7, "alice", "a@b.c", "2024-01-01", "storedhash"⟩]

/-- The identity dict `authenticate_user` is expected to return for `procEx`. -/
def authUserEx : AuthUserData := ⟨7, "alice", "a@b.c", "2024-01-01"⟩

/-! ### Helper lemmas about the JWT decode model -/

theorem jwt_decode_expired (secret : String) (now e : Int) (p : Payload)
    (hexp : p.exp = some e) (hle : e ≤ now) :
    jwt_decode secret now (Token.signed p secret) = .error .expiredSignature := by
  simp [jwt_decode, hexp, hle]

theorem jwt_decode_fresh (secret : String) (now e : Int) (p : Payload)
    (hexp : p.exp = some e) (hgt : now < e) :
    jwt_decode secret now (Token.signed p secret) = .ok p := by
  simp [jwt_decode, hexp, show ¬ e ≤ now from by omega]

theorem jwt_decode_no_exp (secret : String) (now : Int) (p : Payload)
    (hexp : p.exp = none) :
    jwt_decode secret now (Token.signed p secret) = .ok p := by
  simp [jwt_decode, hexp]

/-! ### Claim theorems -/

/-- C2: issuing a token for a claims record (user_id, username, email) and
extracting the user from it — before expiry, under the same configured
secret — returns exactly those three claim values. -/
theorem create_then_extract_roundtrip (cfg : AuthConfig) (u : UserData)
    (issueTime checkTime : Int)
    (hfresh : checkTime < issueTime + cfg.jwt_expire_hours * 3600) :
    extract_user_from_token cfg checkTime (create_access_token cfg issueTime u) =
      .ok ⟨some u.user_id, some u.username, some u.email⟩ := by
  unfold extract_user_from_token verify_token create_access_token
  rw [jwt_decode_fresh cfg.jwt_secret checkTime
    (issueTime + cfg.jwt_expire_hours * 3600) _ rfl hfresh]
  simp

/-- Witness for C2 at a concrete identity, issue time 0, check time 0. -/
theorem create_then_extract_roundtrip_witness :
    (0 : Int) < 0 + cfgEx.jwt_expire_hours * 3600 ∧
    extract_user_from_token cfgEx 0 (create_access_token cfgEx 0 userEx) =
      .ok ⟨some 1, some "alice", some "alice@example.com"⟩ :=
  ⟨by decide, create_then_extract_roundtrip cfgEx userEx 0 0 (by decide)⟩

/-- C3: `verify_password` is total (it returns a `Bool`, never an exception),
it returns `true` exactly when the underlying bcrypt check returns `true`,
and any internal bcrypt failure (malformed hash, encoding error) yields
`false` — so a corrupted stored hash can neither make verification succeed
nor escape as an exception. -/
theorem verify_password_fail_closed
    (checkpw : String → String → Except String Bool)
    (plain hashed : String) :
    (verify_password checkpw plain hashed = true ↔
      checkpw plain hashed = .ok true)
  ∧ (∀ e, checkpw plain hashed = .error e →
      verify_password checkpw plain hashed = false) := by
  constructor
  · unfold verify_password
    cases hc : checkpw plain hashed with
    | ok b => cases b <;> simp
    | error e => simp
  · intro e he
    unfold verify_password
    rw [he]

/-- Witness for C3: a bcrypt stub that raises on a corrupted hash makes
`verify_password` return `false`. -/
theorem verify_password_fail_closed_witness :
    failingCheckpwEx "pw" "corrupted" = .error "Invalid salt" ∧
    verify_password failingCheckpwEx "pw" "corrupted" = false :=
  ⟨rfl, (verify_password_fail_closed failingCheckpwEx "pw" "corrupted").2
    "Invalid salt" rfl⟩

/-- C4: a token whose embedded `exp` is less than or equal to the verification
time is rejected by `verify_token` with the expiry error, even though its
signature (signed with the configured secret) and its `type` discriminator are
valid; in particular `e ≤ now` includes verification exactly at expiry. -/
theorem verify_token_rejects_expired (cfg : AuthConfig) (now e : Int)
    (p : Payload) (_htype : p.type = some "access_token")
    (hexp : p.exp = some e) (hle : e ≤ now) :
    verify_token cfg now (Token.signed p cfg.jwt_secret) =
      .error ⟨"Token has expired"⟩ := by
  unfold verify_token
  rw [jwt_decode_expired cfg.jwt_secret now e p hexp hle]

/-- Witness for C4: the expired example payload, verified exactly 50 seconds
after its `exp`, is rejected as expired. -/
theorem verify_token_rejects_expired_witness :
    expiredPayloadEx.type = some "access_token" ∧
    expiredPayloadEx.exp = some 50 ∧ (50 : Int) ≤ 100 ∧
    verify_token cfgEx 100 (Token.signed expiredPayloadEx "supersecret") =
      .error ⟨"Token has expired"⟩ :=
  ⟨rfl, rfl, by decide,
    verify_token_rejects_expired cfgEx 100 50 expiredPayloadEx rfl rfl (by decide)⟩

/-- C5: a payload whose `type` is anything other than `"access_token"`
(including a missing `type` key) is rejected by `verify_token` with an
`AuthError`, even though it is signed with the configured secret and
unexpired.  (The `AuthError("Invalid token type")` raised inside the `try`
block is re-caught by the `except Exception` clause and surfaces as
`AuthError("Token verification failed")`.) -/
theorem verify_token_rejects_wrong_type (cfg : AuthConfig) (now : Int)
    (p : Payload) (htype : p.type ≠ some "access_token")
    (hfresh : p.exp = none ∨ ∃ e, p.exp = some e ∧ now < e) :
    verify_token cfg now (Token.signed p cfg.jwt_secret) =
      .error ⟨"Token verification failed"⟩ := by
  unfold verify_token
  rcases hfresh with hnone | ⟨e, hexp, hgt⟩
  · rw [jwt_decode_no_exp cfg.jwt_secret now p hnone]
    simp [htype]
  · rw [jwt_decode_fresh cfg.jwt_secret now e p hexp hgt]
    simp [htype]

/-- Witness for C5: an unexpired, correctly signed payload with
`type = "refresh_token"` is rejected. -/
theorem verify_token_rejects_wrong_type_witness :
    wrongTypePayloadEx.type ≠ some "access_token" ∧
    wrongTypePayloadEx.exp = some 1000 ∧ (100 : Int) < 1000 ∧
    verify_token cfgEx 100 (Token.signed wrongTypePayloadEx "supersecret") =
      .error ⟨"Token verification failed"⟩ :=
  ⟨by decide, rfl, by decide,
    verify_token_rejects_wrong_type cfgEx 100 wrongTypePayloadEx (by decide)
      (Or.inr ⟨1000, rfl, by decide⟩)⟩

/-- C6: when the `JWT_SECRET` environment variable is absent (or empty, which
Python truthiness treats the same way), `AuthConfig.__init__` raises
`ValueError`; since `auth_config = AuthConfig()` runs at module import time,
the process fails to start and the missing secret can never surface as a
per-request 401. -/
theorem authconfig_missing_secret_is_startup_error (env : Env)
    (h : env.jwt_secret_var = none ∨ env.jwt_secret_var = some "") :
    AuthConfig.init env =
      .error "JWT_SECRET environment variable not found. Please set a secure secret key for JWT token signing." := by
  unfold AuthConfig.init
  rcases h with h | h <;> rw [h] <;> rfl

/-- Witness for C6: the environment with no `JWT_SECRET` set. -/
theorem authconfig_missing_secret_is_startup_error_witness :
    (⟨none, none, none⟩ : Env).jwt_secret_var = none ∧
    AuthConfig.init ⟨none, none, none⟩ =
      .error "JWT_SECRET environment variable not found. Please set a secure secret key for JWT token signing." :=
  ⟨rfl, authconfig_missing_secret_is_startup_error ⟨none, none, none⟩ (Or.inl rfl)⟩

/-- C7: for any bearer credential, `get_current_user` returns the extracted
claims exactly when token verification succeeds and the claims carry a truthy
(present and non-zero) `user_id`; when verification raises a token error, or
when `user_id` is absent or zero, it fails with the single unauthorized
rejection `HTTPException(401, "Could not validate credentials")`. -/
theorem get_current_user_outcome (cfg : AuthConfig) (now : Int)
    (parse : String → Token) (creds : HTTPAuthorizationCredentials) :
    get_current_user cfg now parse creds =
      match extract_user_from_token cfg now (parse creds.credentials) with
      | .error _ =>
        .error ⟨401, "Could not validate credentials", [("WWW-Authenticate", "Bearer")]⟩
      | .ok info =>
        if info.user_id = none ∨ info.user_id = some 0 then
          .error ⟨401, "Could not validate credentials", [("WWW-Authenticate", "Bearer")]⟩
        else
          .ok info := by
  unfold get_current_user get_current_user_try
  cases extract_user_from_token cfg now (parse creds.credentials) with
  | error e => rfl
  | ok info =>
    by_cases h : info.user_id = none ∨ info.user_id = some 0
    · simp only [if_pos h]
    · simp only [if_neg h]

/-- C8: `create_login_response` returns the issued access token, the literal
token type `"bearer"`, `expires_in` equal to the configured expiry hours
converted to seconds, and a user object carrying exactly the record's
`user_id`, `username` and `email`. -/
theorem create_login_response_contract (cfg : AuthConfig) (now : Int)
    (u : UserData) :
    (create_login_response cfg now u).access_token = create_access_token cfg now u ∧
    (create_login_response cfg now u).token_type = "bearer" ∧
    (create_login_response cfg now u).expires_in = cfg.jwt_expire_hours * 3600 ∧
    (create_login_response cfg now u).user.user_id = u.user_id ∧
    (create_login_response cfg now u).user.username = u.username ∧
    (create_login_response cfg now u).user.email = u.email :=
  ⟨rfl, rfl, rfl, rfl, rfl, rfl⟩

/-- C9: for every per-character classifier pair (Python's Unicode-aware
`str.isalpha` / `str.isdigit`), `validate_password_strength` returns
`(true, "")` exactly when the password has length between 8 and 128 and
contains at least one alphabetic character and at least one digit; whenever
those conditions fail it returns `false` together with a non-empty error
message (and, being a total function, it never raises). -/
theorem validate_password_strength_spec (isalpha isdigit : Char → Bool)
    (p : String) :
    (validate_password_strength isalpha isdigit p = (true, "") ↔
      (8 ≤ p.length ∧ p.length ≤ 128 ∧
        p.toList.any isalpha = true ∧ p.toList.any isdigit = true))
  ∧ (¬ (8 ≤ p.length ∧ p.length ≤ 128 ∧
        p.toList.any isalpha = true ∧ p.toList.any isdigit = true) →
      (validate_password_strength isalpha isdigit p).1 = false ∧
      (validate_password_strength isalpha isdigit p).2 ≠ "") := by
  unfold validate_password_strength
  split_ifs with h1 h2 h3 h4
  · exact ⟨iff_of_false (by decide) (fun ⟨h8, _, _, _⟩ => by omega),
      fun _ => ⟨rfl, by decide⟩⟩
  · exact ⟨iff_of_false (by decide) (fun ⟨_, h128, _, _⟩ => by omega),
      fun _ => ⟨rfl, by decide⟩⟩
  · refine ⟨iff_of_false (by decide) ?_, fun _ => ⟨rfl, by decide⟩⟩
    rintro ⟨-, -, hl, -⟩
    rw [Bool.not_eq_true'] at h3
    exact absurd (h3 ▸ hl) (by decide)
  · refine ⟨iff_of_false (by decide) ?_, fun _ => ⟨rfl, by decide⟩⟩
    rintro ⟨-, -, -, hn⟩
    rw [Bool.not_eq_true'] at h4
    exact absurd (h4 ▸ hn) (by decide)
  · refine ⟨iff_of_true rfl ⟨by omega, by omega, ?_, ?_⟩,
      fun hn => absurd ⟨by omega, by omega, by simpa using h3, by simpa using h4⟩ hn⟩
    · simpa using h3
    · simpa using h4

/-- Witness for C9 at the ASCII classifiers: a too-short password fails the
conditions and is rejected with `false` and a non-empty message, via the
theorem's second conjunct. -/
theorem validate_password_strength_spec_witness :
    (validate_password_strength Char.isAlpha Char.isDigit "short").1 = false ∧
    (validate_password_strength Char.isAlpha Char.isDigit "short").2 ≠ "" :=
  (validate_password_strength_spec Char.isAlpha Char.isDigit "short").2
    (by decide)

/-- C10: whenever `AuthService.authenticate_user` succeeds it returns exactly
the four identity fields (`user_id`, `username`, `email`, `created_at`) of the
first row the `get_user_for_login` procedure returned — the stored password
hash is not part of the result type at all — and it returns `none` (rather
than raising) on a database error, an unknown user, or a failed password
check. -/
theorem authenticate_user_spec
    (checkpw : String → String → Except String Bool)
    (proc : String → Except String (List UserRow))
    (username password : String) :
    (∀ d, authenticate_user checkpw proc username password = some d →
      ∃ u rest, proc username = .ok (u :: rest) ∧
        verify_password checkpw password u.password = true ∧
        d.user_id = u.user_id ∧ d.username = u.username ∧
        d.email = u.email ∧ d.created_at = u.created_at)
  ∧ (∀ e, proc username = .error e →
      authenticate_user checkpw proc username password = none)
  ∧ (proc username = .ok [] →
      authenticate_user checkpw proc username password = none)
  ∧ (∀ u rest, proc username = .ok (u :: rest) →
      verify_password checkpw password u.password = false →
      authenticate_user checkpw proc username password = none) := by
  refine ⟨?_, ?_, ?_, ?_⟩
  · intro d hd
    cases hp : proc username with
    | error e =>
      have hnone : authenticate_user checkpw proc username password = none := by
        unfold authenticate_user
        rw [hp]
      rw [hnone] at hd
      exact absurd hd (by simp)
    | ok rows =>
      cases rows with
      | nil =>
        have hnone : authenticate_user checkpw proc username password = none := by
          unfold authenticate_user
          rw [hp]
        rw [hnone] at hd
        exact absurd hd (by simp)
      | cons u rest =>
        have hred : authenticate_user checkpw proc username password =
            (if verify_password checkpw password u.password = true then
              some ⟨u.user_id, u.username, u.email, u.created_at⟩ else none) := by
          unfold authenticate_user
          rw [hp]
        rw [hred] at hd
        by_cases hv : verify_password checkpw password u.password = true
        · rw [if_pos hv] at hd
          injection hd with hd
          subst hd
          exact ⟨u, rest, rfl, hv, rfl, rfl, rfl, rfl⟩
        · rw [if_neg hv] at hd
          exact absurd hd (by simp)
  · intro e he
    unfold authenticate_user
    rw [he]
  · intro h
    unfold authenticate_user
    rw [h]
  · intro u rest hp hv
    unfold authenticate_user
    rw [hp]
    simp [hv]

/-- Witness for C10: a one-row procedure result with a succeeding password
check yields exactly the identity fields of that row. -/
theorem authenticate_user_spec_witness :
    authenticate_user okCheckpwEx procEx "alice" "secret1" = some authUserEx ∧
    ∃ u rest, procEx "alice" = .ok (u :: rest) ∧
      verify_password okCheckpwEx "secret1" u.password = true ∧
      authUserEx.user_id = u.user_id ∧ authUserEx.username = u.username ∧
      authUserEx.email = u.email ∧ authUserEx.created_at = u.created_at :=
  ⟨rfl, (authenticate_user_spec okCheckpwEx procEx "alice" "secret1").1
    authUserEx rfl⟩

/-- C1 counterexample: the four authentication failures do not share one
status/detail.  With the secret `"supersecret"`, at time 100, in a token
environment where every credential string denotes a correctly signed,
correctly typed but expired token: an absent authorization header and an
empty bearer token are rejected by the `HTTPBearer` dependency with
`403 "Not authenticated"`, a non-Bearer scheme with
`403 "Invalid authentication credentials"`, while the expired token reaches
`get_current_user` and is rejected with
`401 "Could not validate credentials"` — three distinct outcomes, two
distinct status codes. -/
theorem auth_boundary_not_uniform_counterexample :
    auth_request cfgEx 100 parseEx none =
      .error ⟨403, "Not authenticated", []⟩ ∧
    auth_request cfgEx 100 parseEx (some "Bearer ") =
      .error ⟨403, "Not authenticated", []⟩ ∧
    auth_request cfgEx 100 parseEx (some "Basic abc") =
      .error ⟨403, "Invalid authentication credentials", []⟩ ∧
    auth_request cfgEx 100 parseEx (some "Bearer sometoken") =
      .error ⟨401, "Could not validate credentials", [("WWW-Authenticate", "Bearer")]⟩ :=
  ⟨rfl, rfl, rfl, rfl⟩

/-- C1 (amended): every one of the four failing request shapes is rejected,
but not uniformly: requests that fail inside the `HTTPBearer` dependency
(absent header; header whose scheme or parameter is empty, which covers the
empty bearer token; non-Bearer scheme) get status 403 with detail
"Not authenticated" or "Invalid authentication credentials", whereas a
syntactically valid but expired token passes the dependency and is rejected
by `get_current_user` with status 401 and the uniform
"Could not validate credentials" detail. -/
theorem auth_gate_rejects_each_failure (cfg : AuthConfig) (now : Int)
    (parse : String → Token) :
    (auth_request cfg now parse none = .error ⟨403, "Not authenticated", []⟩)
  ∧ (auth_request cfg now parse (some "Bearer ") =
      .error ⟨403, "Not authenticated", []⟩)
  ∧ (∀ hv s tok : String, hv ≠ "" →
      get_authorization_scheme_param (some hv) = (s, tok) →
      s ≠ "" → tok ≠ "" → lowerString s ≠ "bearer" →
      auth_request cfg now parse (some hv) =
        .error ⟨403, "Invalid authentication credentials", []⟩)
  ∧ (∀ (hv s tok : String) (p : Payload) (e : Int), hv ≠ "" →
      get_authorization_scheme_param (some hv) = (s, tok) →
      lowerString s = "bearer" → tok ≠ "" →
      parse tok = Token.signed p cfg.jwt_secret →
      p.exp = some e → e ≤ now →
      auth_request cfg now parse (some hv) =
        .error ⟨401, "Could not validate credentials", [("WWW-Authenticate", "Bearer")]⟩) := by
  refine ⟨rfl, rfl, ?_, ?_⟩
  · intro hv s tok h1 hsp h2 h3 h4
    unfold auth_request http_bearer
    rw [hsp]
    dsimp only
    rw [if_neg (by push_neg; exact ⟨h1, h2, h3⟩), if_pos h4]
  · intro hv s tok p e h1 hsp h2 h3 hp hexp hle
    have h2' : s ≠ "" := by
      intro hemp
      rw [hemp] at h2
      exact absurd h2 (by decide)
    have hred : auth_request cfg now parse (some hv) =
        get_current_user cfg now parse ⟨s, tok⟩ := by
      unfold auth_request http_bearer
      rw [hsp]
      dsimp only
      rw [if_neg (by push_neg; exact ⟨h1, h2', h3⟩), if_neg (not_not_intro h2)]
    rw [hred]
    unfold get_current_user get_current_user_try extract_user_from_token verify_token
    dsimp only
    rw [hp, jwt_decode_expired cfg.jwt_secret now e p hexp hle]

/-- Witness for the amended C1 at concrete requests: a `Basic` header is
rejected with 403, an expired bearer token with 401. -/
theorem auth_gate_rejects_each_failure_witness :
    auth_request cfgEx 100 parseEx (some "Basic abc") =
      .error ⟨403, "Invalid authentication credentials", []⟩ ∧
    auth_request cfgEx 100 parseEx (some "Bearer sometok") =
      .error ⟨401, "Could not validate credentials", [("WWW-Authenticate", "Bearer")]⟩ :=
  ⟨(auth_gate_rejects_each_failure cfgEx 100 parseEx).2.2.1 "Basic abc"
      "Basic" "abc" (by decide) (by decide) (by decide) (by decide) (by decide),
    (auth_gate_rejects_each_failure cfgEx 100 parseEx).2.2.2 "Bearer sometok"
      "Bearer" "sometok" expiredPayloadEx 50 (by decide) (by decide) (by decide)
      (by decide) rfl rfl (by decide)⟩

end NbaBackend
